import Mathlib

/-!
Shallow embedding of the simulation kernel of the `rustroguelike` repository
(`src/main.rs`, `src/inventory_system.rs`, `src/monster_ai_system.rs`,
`src/visibility_system.rs`, `src/saveload_system.rs`, `src/components.rs`,
`src/player.rs`), together with theorems settling the behavioural claims
about the turn pipeline, the item-use engine, monster AI, visibility and
the save/load path.

Entities are modelled as natural numbers (opaque handles), tile coordinates
as pairs of integers mirroring the `i32` fields of `Position` / `rltk::Point`,
and the per-tile map arrays as Lean lists indexed by the flat tile index.
External library calls (`rltk::field_of_view`, `rltk::a_star_search`) are
passed in as explicit inputs, exactly as the systems receive their results.
-/

namespace Roguelike

/-- An opaque entity handle (`specs::Entity`). -/
abbrev Entity := Nat

/-- A tile coordinate, mirroring `rltk::Point` / `Position{x,y}` with `i32`
fields. -/
structure Point where
  x : Int
  y : Int
  deriving DecidableEq, Repr

/-- The map resource (`Map` in `map.rs`): dimensions plus the per-tile
arrays used by the systems under verification.  `map.rs` itself is not part
of the provided sources; the fields and their flat indexing are taken from
their uses in `inventory_system.rs`, `visibility_system.rs`,
`monster_ai_system.rs` and from the spec's data model (§3). -/
structure Map where
  width : Int
  height : Int
  blocked : List Bool
  tile_content : List (List Entity)
  revealed_tiles : List Bool
  visible_tiles : List Bool
  deriving DecidableEq, Repr

/-- Modelled from the spec: `Map::xy_idx` lives in the absent `map.rs`;
§4.2 specifies `tile_index(x,y)` as the single flat addressing scheme for
all per-tile arrays, row-major as witnessed by the inverse computation
`x = step % width, y = step / width` in `monster_ai_system.rs`. -/
def Map.xy_idx (m : Map) (x y : Int) : Nat :=
  (y * m.width + x).toNat

/-- Modelled from the spec: the map is an 80×50 grid (`MAPCOUNT` in the
absent `map.rs`); `main.rs` builds an 80×50 terminal and `player.rs` clamps
player coordinates to `0..=79` × `0..=49`. -/
def MAPCOUNT : Nat := 80 * 50

/-- `CombatStats` component (`components.rs`). -/
structure CombatStats where
  max_hp : Int
  hp : Int
  defense : Int
  power : Int
  deriving DecidableEq, Repr

/-- Target-entity resolution of `ItemUseSystem::run`
(`inventory_system.rs` lines 91–123).  `actingEntity` is the entity the
`WantsToUseItem` intent is attached to; it is in scope in the source loop
but, as the definition shows, targeting never consults it: the `None`
branch pushes the *player resource* entity.  `aoeRadius` is
`aoe.get(useitem.item)`; `fovTiles` stands for the result of
`rltk::field_of_view(target, radius, &*map)`, an external library call. -/
def resolveTargetsFor (m : Map) (playerEntity : Entity) (actingEntity : Entity)
    (target : Option Point) (aoeRadius : Option Int) (fovTiles : List Point) :
    List Entity :=
  match target with
  | none => [playerEntity]
  | some t =>
    match aoeRadius with
    | none => m.tile_content.getD (m.xy_idx t.x t.y) []
    | some _ =>
      let affected := fovTiles.filter (fun p =>
        decide (p.x > 0) && decide (p.x < m.width - 1) &&
        decide (p.y > 0) && decide (p.y < m.height - 1))
      affected.foldl (fun acc p => acc ++ m.tile_content.getD (m.xy_idx p.x p.y) []) []

/-- The effect capabilities an item may carry, as read off the component
storages in `ItemUseSystem::run` (`healing.get`, `inflict_damage.get`,
`confusion.get`, `equippable.get`, `consumables.get`). -/
structure ItemCaps where
  consumable : Bool
  heal_amount : Option Int
  damage : Option Int
  confusionTurns : Option Int
  equipSlot : Option Int
  deriving DecidableEq, Repr

/-- The `used_item` flag as computed by `ItemUseSystem::run`
(`inventory_system.rs` lines 92–194): initialised `true`; the healing
branch resets it and sets it back only when some target has `CombatStats`;
the damage branch resets it and sets it back once per target; the confusion
branch resets it and — unlike the other two — never sets it back inside its
loop.  `hasStats t` is `combat_stats.get_mut(t).is_some()`. -/
def usedItem (caps : ItemCaps) (targets : List Entity)
    (hasStats : Entity → Bool) : Bool :=
  let u0 := true
  let u1 := match caps.heal_amount with
    | none => u0
    | some _ => targets.any hasStats
  let u2 := match caps.damage with
    | none => u1
    | some _ => !targets.isEmpty
  let u3 := match caps.confusionTurns with
    | none => u2
    | some _ => false
  u3

/-- End-of-iteration consumption check of `ItemUseSystem::run`
(`inventory_system.rs` lines 242–250): the item entity is deleted iff
`used_item` is still set and the item carries `Consumable`. -/
def itemDeleted (caps : ItemCaps) (targets : List Entity)
    (hasStats : Entity → Bool) : Bool :=
  usedItem caps targets hasStats && caps.consumable

/-- The consumption rule in the words of the spec (§4.8): the item is used
iff at least one effect capability applied to at least one target, healing
counting only if a target with combat stats existed, and damage, confusion
and equip counting unconditionally once the target set is non-empty.
Stated for comparison against `usedItem`, which is translated from the
source. -/
def specUsedItem (caps : ItemCaps) (targets : List Entity)
    (hasStats : Entity → Bool) : Bool :=
  (caps.heal_amount.isSome && targets.any hasStats) ||
  (caps.damage.isSome && !targets.isEmpty) ||
  (caps.confusionTurns.isSome && !targets.isEmpty) ||
  (caps.equipSlot.isSome && !targets.isEmpty)

/-- The healing update applied to each target carrying `CombatStats`
(`inventory_system.rs` line 133):
`stats.hp = i32::min(stats.max_hp, stats.hp + healer.heal_amount)`. -/
def healApply (heal_amount : Int) (stats : CombatStats) : CombatStats :=
  { stats with hp := min stats.max_hp (stats.hp + heal_amount) }

/-- The `Equipped` storage, modelled as a list of
(item entity, owner, slot) triples, and the `InBackpack` storage as a list
of (item entity, owner) pairs. -/
structure EquipState where
  equipped : List (Entity × Entity × Int)
  backpack : List (Entity × Entity)
  deriving DecidableEq, Repr

/-- The equip branch of `ItemUseSystem::run` (`inventory_system.rs` lines
196–240).  `none` models the index-out-of-bounds panic of
`let target = targets[0]` on an empty target vector; otherwise every item
already equipped by the target in the same slot is unequipped (removed from
`equipped`, inserted into the target's backpack) and the used item is
equipped and removed from the backpack. -/
def equipBranch (slotOpt : Option Int) (item : Entity) (targets : List Entity)
    (st : EquipState) : Option EquipState :=
  match slotOpt with
  | none => some st
  | some target_slot =>
    match targets with
    | [] => none
    | target :: _ =>
      let to_unequip := (st.equipped.filter
        (fun e => e.2.1 == target && e.2.2 == target_slot)).map (·.1)
      let equipped1 := st.equipped.filter
        (fun e => !(e.2.1 == target && e.2.2 == target_slot))
      let backpack1 := st.backpack ++ to_unequip.map (fun i => (i, target))
      let equipped2 := equipped1.filter (fun e => e.1 != item) ++
        [(item, target, target_slot)]
      let backpack2 := backpack1.filter (fun b => b.1 != item)
      some { equipped := equipped2, backpack := backpack2 }

/-- The systems dispatched by `State::run_systems` (`main.rs` lines
73–99), plus `ItemRemoveSystem` from `inventory_system.rs`, which exists in
the source but is never dispatched. -/
inductive SystemTag where
  | visibility
  | monsterAI
  | mapIndexing
  | meleeCombat
  | damage
  | inventory
  | itemUse
  | itemDrop
  | itemRemove
  deriving DecidableEq, Repr

/-- The exact dispatch order of `State::run_systems` (`main.rs` lines
73–99): visibility, monster AI, map indexing, melee combat, damage,
inventory (pickup), item use, item drop.  `ItemRemoveSystem` does not
appear. -/
def runSystemsOrder : List SystemTag :=
  [.visibility, .monsterAI, .mapIndexing, .meleeCombat, .damage,
   .inventory, .itemUse, .itemDrop]

/-- The five intent component storages, each modelled as the list of
entities currently carrying that intent. -/
structure IntentStores where
  wantsToMelee : List Entity
  wantsToPickUp : List Entity
  wantsToUse : List Entity
  wantsToDrop : List Entity
  wantsToRemove : List Entity
  deriving DecidableEq, Repr

/-- Effect of one dispatched system on the intent storages.
`newMelee` is the set of melee intents `MonsterAI::run` inserts during a
monster turn (`monster_ai_system.rs` line 51).  Clearing:
`InventorySystem::run` ends with `wants_pickup.clear()`
(`inventory_system.rs` line 44), `ItemUseSystem::run` with
`wants_use_item.clear()` (line 252), `ItemDropSystem::run` with
`wants_drop.clear()` (line 305) and `ItemRemoveSystem::run` with
`wants_remove.clear()` (line 336).  The melee clear is modelled from the
spec: `melee_combat_system.rs` is not among the provided sources and §4.7
states that the melee sub-step clears the melee intent. -/
def systemIntentStep (newMelee : List Entity) (s : IntentStores) :
    SystemTag → IntentStores
  | .visibility => s
  | .monsterAI => { s with wantsToMelee := s.wantsToMelee ++ newMelee }
  | .mapIndexing => s
  | .meleeCombat => { s with wantsToMelee := [] }
  | .damage => s
  | .inventory => { s with wantsToPickUp := [] }
  | .itemUse => { s with wantsToUse := [] }
  | .itemDrop => { s with wantsToDrop := [] }
  | .itemRemove => { s with wantsToRemove := [] }

/-- Effect of one full `State::run_systems` pass on the intent storages:
the systems of `runSystemsOrder` applied in order. -/
def runSystemsIntents (newMelee : List Entity) (s : IntentStores) :
    IntentStores :=
  runSystemsOrder.foldl (fun acc tag => systemIntentStep newMelee acc tag) s

/-- `Viewshed` component (`components.rs`). -/
structure Viewshed where
  visible_tiles : List Point
  range : Int
  dirty : Bool
  deriving DecidableEq, Repr

/-- The retain predicate of `VisibilitySystem::run`
(`visibility_system.rs` line 32), verbatim:
`p.x >= 0 && p.x < map.width && p.y >= 0 && p.y <= map.height`.
Note the `<=` on the `y` coordinate against the `<` on `x`. -/
def viewshedRetain (m : Map) (p : Point) : Bool :=
  decide (p.x ≥ 0) && decide (p.x < m.width) &&
  decide (p.y ≥ 0) && decide (p.y ≤ m.height)

/-- A tile coordinate lies inside the map bounds
`[0,width) × [0,height)` (spec §4.2's precondition for `tile_index`). -/
def inBounds (m : Map) (p : Point) : Prop :=
  0 ≤ p.x ∧ p.x < m.width ∧ 0 ≤ p.y ∧ p.y < m.height

instance (m : Map) (p : Point) : Decidable (inBounds m p) :=
  inferInstanceAs
    (Decidable (0 ≤ p.x ∧ p.x < m.width ∧ 0 ≤ p.y ∧ p.y < m.height))

/-- One viewshed update of `VisibilitySystem::run`
(`visibility_system.rs` lines 21–33): when `dirty`, replace
`visible_tiles` by the field-of-view result filtered by the retain
predicate and clear `dirty`; otherwise leave the viewshed untouched.
`fov` stands for the result of the external
`rltk::field_of_view(pos, range, &*map)` call. -/
def visibilityRecompute (m : Map) (fov : List Point) (v : Viewshed) :
    Viewshed :=
  if v.dirty then
    { visible_tiles := fov.filter (viewshedRetain m), range := v.range,
      dirty := false }
  else v

/-- The confusion bookkeeping at the top of the per-monster loop of
`MonsterAI::run` (`monster_ai_system.rs` lines 34–43): when the monster
carries `Confusion{turns}`, decrement `turns`, remove the component once
the counter drops below 1, and clear `can_act`.  Returns the new component
value and `can_act`. -/
def confusionStep : Option Int → Option Int × Bool
  | none => (none, true)
  | some turns =>
    let t := turns - 1
    (if t < 1 then none else some t, false)

/-- The result of `rltk::a_star_search`: a success flag and the list of
traversed flat tile indices, index 0 being the start tile
(`monster_ai_system.rs` lines 53–60). -/
structure PathResult where
  success : Bool
  steps : List Nat
  deriving DecidableEq, Repr

/-- Per-monster state touched by `MonsterAI::run`: position, the optional
`Confusion` component, and the viewshed. -/
structure MonsterState where
  pos : Point
  confusion : Option Int
  viewshed : Viewshed
  deriving DecidableEq, Repr

/-- Outcome of one monster's iteration of `MonsterAI::run`: updated
monster state, updated `blocked` array, and whether a `WantsToMelee`
intent was inserted. -/
structure MonsterOutcome where
  monster : MonsterState
  blocked : List Bool
  meleeInserted : Bool
  deriving DecidableEq, Repr

/-- Squared Euclidean distance between two tile coordinates.  The source
guard `rltk::DistanceAlg::Pythagoras.distance2d(pos, player) < 1.5`
compares the real distance with 1.5; over integer coordinates this is
equivalent to the squared distance being at most 2, since the squared
distance is an integer and `1.5² = 2.25`. -/
def distSq (a b : Point) : Int :=
  (a.x - b.x) * (a.x - b.x) + (a.y - b.y) * (a.y - b.y)

/-- One monster's iteration of the per-entity loop of `MonsterAI::run`
(`monster_ai_system.rs` lines 31–71), with the `RunState` guard already
passed (i.e. during a monster turn).  `path` stands for the result of the
external `rltk::a_star_search` call from the monster's tile to the
player's tile. -/
def monsterAIStep (m : Map) (playerPos : Point) (st : MonsterState)
    (path : PathResult) : MonsterOutcome :=
  let c := confusionStep st.confusion
  let st1 := { st with confusion := c.1 }
  if c.2 then
    if distSq st.pos playerPos ≤ 2 then
      { monster := st1, blocked := m.blocked, meleeInserted := true }
    else if playerPos ∈ st.viewshed.visible_tiles then
      if path.success && path.steps.length > 1 then
        let oldIdx := m.xy_idx st.pos.x st.pos.y
        let step1 : Int := Int.ofNat (path.steps.getD 1 0)
        let newX := step1 % m.width
        let newY := step1 / m.width
        let newIdx := m.xy_idx newX newY
        let blocked1 := (m.blocked.set oldIdx false).set newIdx true
        { monster := { st1 with
            pos := { x := newX, y := newY },
            viewshed := { st1.viewshed with dirty := true } },
          blocked := blocked1, meleeInserted := false }
      else
        { monster := st1, blocked := m.blocked, meleeInserted := false }
    else
      { monster := st1, blocked := m.blocked, meleeInserted := false }
  else
    { monster := st1, blocked := m.blocked, meleeInserted := false }

/-- A deserialized entity as `load_game` inspects it
(`saveload_system.rs` lines 98–118): its handle, whether it carries the
`Player` marker, its optional `Position`, and, for the serialization
helper entity, the `Map` payload of its `SerializationHelper` component. -/
structure LoadedEntity where
  id : Entity
  isPlayer : Bool
  pos : Option Point
  helperMap : Option Map
  deriving DecidableEq, Repr

/-- The pieces of world state `load_game` touches: the live entities, the
`Map` resource, the player `Point` resource and the player `Entity`
resource. -/
structure LoadWorld where
  entities : List LoadedEntity
  mapRes : Map
  playerPoint : Point
  playerEntity : Entity
  deriving DecidableEq, Repr

/-- The helper-entity loop of `load_game` (`saveload_system.rs` lines
105–110): for each entity carrying `SerializationHelper`, overwrite the
`Map` resource with the payload, reinitialise `tile_content` as
`vec![Vec::new(); MAPCOUNT]`, and record the helper in `delete_me`. -/
def helperLoopStep (acc : Map × Option Entity) (le : LoadedEntity) :
    Map × Option Entity :=
  match le.helperMap with
  | some hm => ({ hm with tile_content := List.replicate MAPCOUNT [] }, some le.id)
  | none => acc

/-- The player loop of `load_game` (`saveload_system.rs` lines 112–117):
for each entity carrying both the `Player` marker and a `Position`, set
the player `Point` resource from the position and the player `Entity`
resource to the entity. -/
def playerLoopStep (acc : Option (Entity × Point)) (le : LoadedEntity) :
    Option (Entity × Point) :=
  match le.pos with
  | some p => if le.isPlayer then some (le.id, p) else acc
  | none => acc

/-- `load_game` (`saveload_system.rs` lines 74–120): delete every
pre-existing entity; deserialize the saved entities (`saved` stands for
the deserialized population); run the helper loop and the player loop;
finally `delete_me.unwrap()` deletes the helper entity — `none` models the
`unwrap` panic when no helper entity was loaded. -/
def load_game (w : LoadWorld) (saved : List LoadedEntity) :
    Option LoadWorld :=
  let afterDeser := saved
  let helperRes := afterDeser.foldl helperLoopStep (w.mapRes, none)
  let playerRes := afterDeser.foldl playerLoopStep none
  match helperRes.2 with
  | none => none
  | some he =>
    some { entities := afterDeser.filter (fun le => le.id ≠ he),
           mapRes := helperRes.1,
           playerPoint := match playerRes with
             | some ep => ep.2
             | none => w.playerPoint,
           playerEntity := match playerRes with
             | some ep => ep.1
             | none => w.playerEntity }

/-! Concrete instances used by counterexamples and witnesses. -/

/-- A small concrete map whose tile-content cache is empty everywhere. -/
def cexMap : Map :=
  { width := 4, height := 4, blocked := [], tile_content := [],
    revealed_tiles := [], visible_tiles := [] }

/-- The 80×50 map of the game (`RltkBuilder::simple80x50` in `main.rs`),
with per-tile arrays of length `MAPCOUNT`. -/
def bugMap : Map :=
  { width := 80, height := 50,
    blocked := List.replicate MAPCOUNT false,
    tile_content := List.replicate MAPCOUNT [],
    revealed_tiles := List.replicate MAPCOUNT false,
    visible_tiles := List.replicate MAPCOUNT false }

/-- A consumable item whose only effect capability is `Confusion{turns:3}`
(the repository's magic-mapping-free confusion scroll shape). -/
def confusionOnlyCaps : ItemCaps :=
  { consumable := true, heal_amount := none, damage := none,
    confusionTurns := some 3, equipSlot := none }

/-- Intent storages holding one stale `WantsToRemoveItem` intent and
nothing else. -/
def staleRemove : IntentStores :=
  { wantsToMelee := [], wantsToPickUp := [], wantsToUse := [],
    wantsToDrop := [], wantsToRemove := [7] }

/-- A small 5×5 map used by the chase witness. -/
def chaseMap : Map :=
  { width := 5, height := 5, blocked := List.replicate 25 false,
    tile_content := List.replicate 25 [],
    revealed_tiles := List.replicate 25 false,
    visible_tiles := List.replicate 25 false }

/-- An unconfused monster at tile (1,1) that sees the player at (4,1). -/
def chaseMonster : MonsterState :=
  { pos := { x := 1, y := 1 }, confusion := none,
    viewshed := { visible_tiles := [{ x := 4, y := 1 }], range := 8,
                  dirty := false } }

/-- A successful path from flat index 6 (=(1,1)) to index 9 (=(4,1)). -/
def chasePath : PathResult :=
  { success := true, steps := [6, 7, 8, 9] }

/-- A failed pathfinding result. -/
def chaseFailPath : PathResult :=
  { success := false, steps := [] }

/-- A monster at tile (1,1) carrying `Confusion{turns:2}`. -/
def confusedMonster : MonsterState :=
  { pos := { x := 1, y := 1 }, confusion := some 2,
    viewshed := { visible_tiles := [{ x := 4, y := 1 }], range := 8,
                  dirty := false } }

/-- The map payload carried by the serialization helper in the load
witness. -/
def savedMap : Map :=
  { width := 80, height := 50, blocked := [true, false],
    tile_content := [[3], [4]], revealed_tiles := [true, true],
    visible_tiles := [false, true] }

/-- The deserialized serialization-helper entity of the load witness. -/
def helperEnt : LoadedEntity :=
  { id := 9, isPlayer := false, pos := none, helperMap := some savedMap }

/-- The deserialized player entity of the load witness. -/
def playerEnt : LoadedEntity :=
  { id := 1, isPlayer := true, pos := some { x := 3, y := 4 },
    helperMap := none }

/-- A deserialized monster entity of the load witness. -/
def monsterEnt : LoadedEntity :=
  { id := 2, isPlayer := false, pos := some { x := 5, y := 5 },
    helperMap := none }

/-- The deserialized entity population of the load witness. -/
def saved0 : List LoadedEntity := [playerEnt, helperEnt, monsterEnt]

/-- The pre-load world of the load witness: a stale entity population and
stale resources that `load_game` must replace. -/
def world0 : LoadWorld :=
  { entities := [{ id := 0, isPlayer := true, pos := some { x := 0, y := 0 },
                   helperMap := none }],
    mapRes := cexMap, playerPoint := { x := 0, y := 0 }, playerEntity := 0 }

/-! Helper lemmas about single-trigger folds (shared by the `load_game`
development). -/

/-- A fold whose step ignores elements failing `p` is the identity on a
list with no element satisfying `p`. -/
theorem foldl_no_trigger {α β : Type} (p : α → Bool) (f : β → α → β)
    (hskip : ∀ acc le, p le = false → f acc le = acc) :
    ∀ (l : List α) (acc : β), l.filter p = [] → l.foldl f acc = acc := by
  intro l
  induction l with
  | nil => intro acc _; rfl
  | cons a l ih =>
    intro acc hfil
    by_cases hpa : p a = true
    · simp [List.filter_cons, hpa] at hfil
    · rw [List.foldl_cons, hskip acc a (by simpa using hpa)]
      apply ih
      simpa [List.filter_cons, hpa] using hfil

/-- A fold whose step ignores elements failing `p` and is
accumulator-independent on elements satisfying `p` computes, on a list
whose unique `p`-element is `x`, the step applied to `x`. -/
theorem foldl_single_trigger {α β : Type} (p : α → Bool) (f : β → α → β)
    (hskip : ∀ acc le, p le = false → f acc le = acc) :
    ∀ (l : List α) (acc : β) (x : α),
      l.filter p = [x] → l.foldl f acc = f acc x := by
  intro l
  induction l with
  | nil => intro acc x hfil; simp at hfil
  | cons a l ih =>
    intro acc x hfil
    by_cases hpa : p a = true
    · have hax : a = x ∧ l.filter p = [] := by
        have h2 := hfil
        simp only [List.filter_cons, hpa, if_true, List.cons.injEq] at h2
        exact h2
      rw [List.foldl_cons,
        foldl_no_trigger p f hskip l (f acc a) hax.2, hax.1]
    · rw [List.foldl_cons, hskip acc a (by simpa using hpa)]
      apply ih
      simpa [List.filter_cons, hpa] using hfil

/-- In every branch of `MonsterAI::run`, the monster's stored `Confusion`
component after the iteration is the first component of the confusion
bookkeeping step. -/
theorem monsterAIStep_confusion (m : Map) (pp : Point) (st : MonsterState)
    (path : PathResult) :
    (monsterAIStep m pp st path).monster.confusion =
      (confusionStep st.confusion).1 := by
  simp only [monsterAIStep]
  split_ifs <;> rfl

/-- The helper loop step leaves the accumulator unchanged on entities not
carrying `SerializationHelper`. -/
theorem helperLoopStep_skip (acc : Map × Option Entity) (le : LoadedEntity)
    (h : le.helperMap.isSome = false) : helperLoopStep acc le = acc := by
  cases hm : le.helperMap with
  | none => simp [helperLoopStep, hm]
  | some v => rw [hm] at h; simp at h

/-- The player loop step leaves the accumulator unchanged on entities not
carrying both the `Player` marker and a `Position`. -/
theorem playerLoopStep_skip (acc : Option (Entity × Point))
    (le : LoadedEntity) (h : (le.isPlayer && le.pos.isSome) = false) :
    playerLoopStep acc le = acc := by
  cases hp : le.pos with
  | none => simp [playerLoopStep, hp]
  | some p =>
    rw [hp] at h
    simp at h
    simp [playerLoopStep, hp, h]

/-- `getD` on a replicated list always returns the replicated element. -/
theorem getD_replicate {α : Type} (d : α) :
    ∀ (n i : Nat), (List.replicate n d).getD i d = d
  | 0, _ => rfl
  | _ + 1, 0 => rfl
  | n + 1, i + 1 => getD_replicate d n i

/-! Claim theorems. -/

/-- C1 (counterexample): a consumable item whose only effect capability is
`Confusion` and whose resolved target set is the non-empty `[0]` counts as
"used" under the spec's consumption rule, yet `ItemUseSystem::run` does
not delete it: the confusion branch resets `used_item` and never sets it
back. -/
theorem confusion_item_not_consumed_cex :
    itemDeleted confusionOnlyCaps [0] (fun _ => true) = false ∧
    specUsedItem confusionOnlyCaps [0] (fun _ => true) = true ∧
    confusionOnlyCaps.consumable = true := by
  decide

/-- C1 (amended): the item entity is deleted at end of pass iff it carries
`Consumable` and the last effect branch present on the item (in the order
healing, damage, confusion) reported success: the confusion branch never
reports success, the damage branch reports success iff the target set is
non-empty, the healing branch iff some target carries `CombatStats`, and
an item with none of the three effect branches counts as used by default
(so a consumable item with only a `Confusion` effect is never deleted,
whatever the target set). -/
theorem item_consumption_rule (caps : ItemCaps) (targets : List Entity)
    (hasStats : Entity → Bool) :
    itemDeleted caps targets hasStats = true ↔
      caps.consumable = true ∧
      (if caps.confusionTurns.isSome = true then False
       else if caps.damage.isSome = true then targets ≠ []
       else if caps.heal_amount.isSome = true then
         ∃ t ∈ targets, hasStats t = true
       else True) := by
  unfold itemDeleted usedItem
  cases hc : caps.confusionTurns with
  | some c => simp [hc]
  | none =>
    cases hd : caps.damage with
    | some d =>
      simp [hc, hd, Bool.and_eq_true, and_comm, List.isEmpty_iff]
    | none =>
      cases hh : caps.heal_amount with
      | some a =>
        simp [hc, hd, hh, Bool.and_eq_true, and_comm, List.any_eq_true]
      | none => simp [hc, hd, hh]

/-- C2 (counterexample): a `WantsToUseItem` intent with no target carried
by acting entity `1` while the player resource is entity `0` resolves to
the singleton `[0]` — the player — not to the acting entity `1`. -/
theorem target_none_not_acting_entity_cex :
    ¬ (resolveTargetsFor cexMap 0 1 none none [] = [1]) := by
  decide

/-- C2 (amended): when the intent's target field is absent the resolved
target entity set is exactly the singleton containing the *player
resource* entity, whatever the acting entity is; it coincides with the
acting entity only when the actor is the player. -/
theorem target_none_gives_player (m : Map) (player acting : Entity)
    (aoe : Option Int) (fov : List Point) :
    resolveTargetsFor m player acting none aoe fov = [player] := rfl

/-- C3 (counterexample): in the dispatch order of `State::run_systems` the
Map Indexing System (position 2) does not execute before the Monster AI
System (position 1). -/
theorem mapIndexing_not_before_monsterAI :
    ¬ (runSystemsOrder.indexOf .mapIndexing <
        runSystemsOrder.indexOf .monsterAI) := by
  decide

/-- C3 (amended): within every pipeline pass, the Monster AI System
executes strictly before the Map Indexing System, so the `blocked` array
the monster pathfinding reads is the one produced by the *previous*
pass's Map Indexing run (as patched incrementally by monster moves), not
a freshly rebuilt one. -/
theorem monsterAI_before_mapIndexing :
    runSystemsOrder.indexOf .monsterAI <
      runSystemsOrder.indexOf .mapIndexing ∧
    SystemTag.monsterAI ∈ runSystemsOrder ∧
    SystemTag.mapIndexing ∈ runSystemsOrder := by
  decide

/-- C8: healing sets each stats-carrying target's hp to
`min(max_hp, hp + amount)`; on `hp=10, max_hp=20, amount=50` the result
is `20`, and the result never exceeds `max_hp`. -/
theorem healing_clamp :
    (∀ (a : Int) (s : CombatStats),
      (healApply a s).hp = min s.max_hp (s.hp + a)) ∧
    (healApply 50 { max_hp := 20, hp := 10, defense := 0, power := 0 }).hp
      = 20 ∧
    (∀ (a : Int) (s : CombatStats), (healApply a s).hp ≤ s.max_hp) := by
  refine ⟨fun a s => rfl, by decide, fun a s => min_le_left _ _⟩

/-- C4 (counterexample): a pipeline pass over storages holding one stale
`WantsToRemoveItem` intent does not leave every intent store empty —
`State::run_systems` never dispatches `ItemRemoveSystem`, so the remove
store survives untouched. -/
theorem remove_intent_survives_pass :
    ¬ ((runSystemsIntents [] staleRemove).wantsToRemove = []) := by
  decide

/-- C4 (amended): after any single pipeline pass the `WantsToMelee`,
`WantsToPickUpItem`, `WantsToUseItem` and `WantsToDropItem` stores are
empty (each dispatched system ends by clearing its store), but the
`WantsToRemoveItem` store is exactly what it was before the pass, because
`ItemRemoveSystem` — the only system that clears it — is never dispatched
by `State::run_systems`; hence a second pass with no new intents is a
no-op on the four dispatched intent stores only, while stale remove
intents persist across passes. -/
theorem pipeline_clears_dispatched_intents (newMelee : List Entity)
    (s : IntentStores) :
    (runSystemsIntents newMelee s).wantsToMelee = [] ∧
    (runSystemsIntents newMelee s).wantsToPickUp = [] ∧
    (runSystemsIntents newMelee s).wantsToUse = [] ∧
    (runSystemsIntents newMelee s).wantsToDrop = [] ∧
    (runSystemsIntents newMelee s).wantsToRemove = s.wantsToRemove :=
  ⟨rfl, rfl, rfl, rfl, rfl⟩

/-- C5 (code evaluated at the failing input): on the game's 80×50 map the
retain filter of `VisibilitySystem::run` keeps the tile `(0, 50)` — its
`y`-test is `p.y <= map.height`, not `<` — although that tile lies outside
`[0,width)×[0,height)` and its flat index equals `MAPCOUNT`, one past the
end of the per-tile arrays; a dirty viewshed whose field-of-view contains
`(0,50)` therefore retains an out-of-range tile (while `dirty` is indeed
cleared). -/
theorem viewshed_retains_out_of_bounds_tile :
    viewshedRetain bugMap { x := 0, y := 50 } = true ∧
    ¬ inBounds bugMap { x := 0, y := 50 } ∧
    bugMap.xy_idx 0 50 = MAPCOUNT ∧
    bugMap.revealed_tiles.length = MAPCOUNT ∧
    (visibilityRecompute bugMap [{ x := 0, y := 50 }]
      { visible_tiles := [], range := 8, dirty := true }).visible_tiles
        = [{ x := 0, y := 50 }] ∧
    (visibilityRecompute bugMap [{ x := 0, y := 50 }]
      { visible_tiles := [], range := 8, dirty := true }).dirty = false := by
  refine ⟨rfl, by decide, rfl, by simp [bugMap], rfl, rfl⟩

/-- C6: a monster starting a monster turn with `Confusion{turns:2}`
inserts no melee intent, does not move and leaves `blocked` untouched on
that turn (counter becomes 1) and on the next turn (component removed),
and on the third turn the component is absent and the confusion gate
reports that the monster may act. -/
theorem confusion_two_turn_skip
    (m₁ m₂ m₃ : Map) (pp₁ pp₂ pp₃ : Point) (st : MonsterState)
    (path₁ path₂ path₃ : PathResult)
    (hconf : st.confusion = some 2) :
    monsterAIStep m₁ pp₁ st path₁ =
      { monster := { st with confusion := some 1 }, blocked := m₁.blocked,
        meleeInserted := false } ∧
    (∀ st', st'.confusion = some 1 →
      monsterAIStep m₂ pp₂ st' path₂ =
        { monster := { st' with confusion := none }, blocked := m₂.blocked,
          meleeInserted := false }) ∧
    (∀ st', st'.confusion = none →
      (monsterAIStep m₃ pp₃ st' path₃).monster.confusion = none ∧
      (confusionStep st'.confusion).2 = true) := by
  refine ⟨?_, ?_, ?_⟩
  · simp [monsterAIStep, confusionStep, hconf]
  · intro st' h
    simp [monsterAIStep, confusionStep, h]
  · intro st' h
    constructor
    · rw [monsterAIStep_confusion, h]; rfl
    · rw [h]; rfl

/-- C6 (witness): the two-turn skip evaluated on a concrete confused
monster: turn one decrements the counter to 1 with no melee and no
movement, turn two removes the component, turn three finds it absent. -/
theorem confusion_two_turn_skip_witness :
    monsterAIStep chaseMap { x := 4, y := 1 } confusedMonster chasePath =
      { monster := { confusedMonster with confusion := some 1 },
        blocked := chaseMap.blocked, meleeInserted := false } ∧
    monsterAIStep chaseMap { x := 4, y := 1 }
        { confusedMonster with confusion := some 1 } chasePath =
      { monster := { confusedMonster with confusion := none },
        blocked := chaseMap.blocked, meleeInserted := false } ∧
    (monsterAIStep chaseMap { x := 4, y := 1 }
        { confusedMonster with confusion := none } chasePath).monster.confusion
      = none := by
  have h := confusion_two_turn_skip chaseMap chaseMap chaseMap
    { x := 4, y := 1 } { x := 4, y := 1 } { x := 4, y := 1 }
    confusedMonster chasePath chasePath chasePath rfl
  exact ⟨h.1, h.2.1 _ rfl, (h.2.2 _ rfl).1⟩

/-- C7: for a non-confused monster at distance at least 1.5 from the
player (squared distance ≥ 3) whose visible set contains the player's
tile: when pathfinding succeeds with more than one step, the monster's
old tile's blocked bit is cleared, its position becomes the coordinates
of the path's step at index 1 (`x = step % width`, `y = step / width`),
the new tile's blocked bit is set and the viewshed turns dirty; when the
path fails or has a single step, position and `blocked` are unchanged and
no melee intent is inserted. -/
theorem monster_chase_move (m : Map) (pp : Point) (st : MonsterState)
    (path : PathResult)
    (hconf : st.confusion = none)
    (hdist : 3 ≤ distSq st.pos pp)
    (hvis : pp ∈ st.viewshed.visible_tiles) :
    (path.success = true → 1 < path.steps.length →
      monsterAIStep m pp st path =
        { monster :=
            { pos := { x := Int.ofNat (path.steps.getD 1 0) % m.width,
                       y := Int.ofNat (path.steps.getD 1 0) / m.width },
              confusion := none,
              viewshed := { st.viewshed with dirty := true } },
          blocked := (m.blocked.set (m.xy_idx st.pos.x st.pos.y) false).set
            (m.xy_idx (Int.ofNat (path.steps.getD 1 0) % m.width)
              (Int.ofNat (path.steps.getD 1 0) / m.width)) true,
          meleeInserted := false }) ∧
    (¬ (path.success = true ∧ 1 < path.steps.length) →
      monsterAIStep m pp st path =
        { monster := st, blocked := m.blocked, meleeInserted := false }) := by
  have hd2 : ¬ (distSq st.pos pp ≤ 2) := by omega
  constructor
  · intro hs hl
    simp [monsterAIStep, confusionStep, hconf, hd2, hvis, hs, hl]
  · intro hnot
    have hst : { st with confusion := none } = st := by
      cases st; simp_all
    simp only [monsterAIStep, confusionStep, hconf]
    simp [hd2, hvis, hst]
    intro hs hl
    exact absurd ⟨hs, hl⟩ hnot

/-- C7 (witness): the chase move evaluated concretely on the 5×5 map: the
monster at (1,1) with the player visible at (4,1) follows the successful
path `[6,7,8,9]` to step index 1 — tile (2,1) — clearing blocked at index
6 and setting it at index 7, marking the viewshed dirty; with a failed
path it stays put. -/
theorem monster_chase_move_witness :
    monsterAIStep chaseMap { x := 4, y := 1 } chaseMonster chasePath =
      { monster :=
          { pos := { x := 2, y := 1 }, confusion := none,
            viewshed := { visible_tiles := [{ x := 4, y := 1 }], range := 8,
                          dirty := true } },
        blocked := ((List.replicate 25 false).set 6 false).set 7 true,
        meleeInserted := false } ∧
    monsterAIStep chaseMap { x := 4, y := 1 } chaseMonster chaseFailPath =
      { monster := chaseMonster, blocked := chaseMap.blocked,
        meleeInserted := false } := by
  constructor
  · exact (monster_chase_move chaseMap { x := 4, y := 1 } chaseMonster
      chasePath rfl (by decide) (by decide)).1 rfl (by decide)
  · exact (monster_chase_move chaseMap { x := 4, y := 1 } chaseMonster
      chaseFailPath rfl (by decide) (by decide)).2 (by decide)

/-- C10: if the used item is `Equippable` and the resolved target set is
empty — as happens for a non-AoE item aimed at a tile whose
`tile_content` list is empty — the equip branch evaluates
`targets[0]` on an empty vector and aborts (modelled as `none`); with any
non-empty target set the branch completes. -/
theorem equip_branch_empty_target :
    (∀ (m : Map) (player acting item : Entity) (pt : Point) (slot : Int)
       (fov : List Point) (st : EquipState),
       m.tile_content.getD (m.xy_idx pt.x pt.y) [] = [] →
       equipBranch (some slot) item
         (resolveTargetsFor m player acting (some pt) none fov) st = none) ∧
    (∀ (slot : Int) (item : Entity) (targets : List Entity)
       (st : EquipState),
       targets ≠ [] → (equipBranch (some slot) item targets st).isSome = true)
    := by
  constructor
  · intro m player acting item pt slot fov st hempty
    have h1 : resolveTargetsFor m player acting (some pt) none fov = [] := by
      simp only [resolveTargetsFor]
      exact hempty
    rw [h1]
    rfl
  · intro slot item targets st hne
    cases targets with
    | nil => exact absurd rfl hne
    | cons t ts => simp [equipBranch]

/-- C10 (witness): on the concrete map with an everywhere-empty
tile-content cache, equipping through a tile-targeted intent aborts, while
a one-element target list succeeds. -/
theorem equip_branch_empty_target_witness :
    equipBranch (some 1) 5
      (resolveTargetsFor cexMap 0 0 (some { x := 1, y := 1 }) none [])
      { equipped := [], backpack := [] } = none ∧
    (equipBranch (some 1) 5 [2]
      { equipped := [], backpack := [] }).isSome = true := by
  constructor
  · exact equip_branch_empty_target.1 cexMap 0 0 5 { x := 1, y := 1 } 1 []
      { equipped := [], backpack := [] } (by decide)
  · exact equip_branch_empty_target.2 1 5 [2]
      { equipped := [], backpack := [] } (by decide)

/-- C9: when the deserialized population contains exactly one entity
carrying `SerializationHelper` and exactly one entity carrying both the
`Player` marker and a `Position`, `load_game` completes and yields a world
whose entity population comes only from the save with the helper entity
removed, whose `Map` resource equals the helper's payload except that
`tile_content` is reinitialised to `MAPCOUNT` empty per-tile lists, and
whose player `Point` and player `Entity` resources come from the unique
player entity. -/
theorem load_game_spec
    (w : LoadWorld) (saved : List LoadedEntity) (hent qent : LoadedEntity)
    (hm : Map) (qp : Point)
    (hhelp : saved.filter (fun le => le.helperMap.isSome) = [hent])
    (hmm : hent.helperMap = some hm)
    (hplay : saved.filter (fun le => le.isPlayer && le.pos.isSome) = [qent])
    (hqp : qent.pos = some qp) :
    ∃ w', load_game w saved = some w' ∧
      w'.mapRes = { hm with tile_content := List.replicate MAPCOUNT [] } ∧
      (∀ i, w'.mapRes.tile_content.getD i [] = []) ∧
      w'.playerPoint = qp ∧
      w'.playerEntity = qent.id ∧
      w'.entities = saved.filter (fun le => le.id ≠ hent.id) ∧
      (∀ le ∈ w'.entities, le ∈ saved ∧ le.id ≠ hent.id) := by
  have hqmem : qent ∈ saved.filter (fun le => le.isPlayer && le.pos.isSome) := by
    rw [hplay]
    exact List.mem_singleton.mpr rfl
  have hq : qent.isPlayer = true :=
    (Bool.and_eq_true _ _ |>.mp (List.mem_filter.mp hqmem).2).1
  have hfold1 : saved.foldl helperLoopStep (w.mapRes, none) =
      ({ hm with tile_content := List.replicate MAPCOUNT [] }, some hent.id) := by
    rw [foldl_single_trigger (fun le => le.helperMap.isSome) helperLoopStep
      helperLoopStep_skip saved _ hent hhelp]
    simp [helperLoopStep, hmm]
  have hfold2 : saved.foldl playerLoopStep none = some (qent.id, qp) := by
    rw [foldl_single_trigger (fun le => le.isPlayer && le.pos.isSome)
      playerLoopStep playerLoopStep_skip saved _ qent hplay]
    simp [playerLoopStep, hqp, hq]
  refine ⟨{ entities := saved.filter (fun le => le.id ≠ hent.id),
            mapRes := { hm with tile_content := List.replicate MAPCOUNT [] },
            playerPoint := qp, playerEntity := qent.id },
    ?_, rfl, ?_, rfl, rfl, rfl, ?_⟩
  · simp only [load_game]
    rw [hfold1, hfold2]
  · intro i
    exact getD_replicate [] MAPCOUNT i
  · intro le hle
    have h2 := List.mem_filter.mp hle
    exact ⟨h2.1, by simpa using h2.2⟩

/-- C9 (witness): loading the concrete three-entity save — player entity
1 at (3,4), helper entity 9 carrying the map payload, monster entity 2 —
succeeds and yields the reinitialised map, the restored player resources
and the helper-free population. -/
theorem load_game_spec_witness :
    ∃ w', load_game world0 saved0 = some w' ∧
      w'.mapRes = { savedMap with tile_content := List.replicate MAPCOUNT [] } ∧
      (∀ i, w'.mapRes.tile_content.getD i [] = []) ∧
      w'.playerPoint = { x := 3, y := 4 } ∧
      w'.playerEntity = playerEnt.id ∧
      w'.entities = saved0.filter (fun le => le.id ≠ helperEnt.id) ∧
      (∀ le ∈ w'.entities, le ∈ saved0 ∧ le.id ≠ helperEnt.id) :=
  load_game_spec world0 saved0 helperEnt playerEnt savedMap
    { x := 3, y := 4 } (by decide) rfl (by decide) rfl

end Roguelike

